import Mathlib

/-!
Verification of the facilitator orchestration and cross-chain settlement
pipeline of the `transactional_agent_synergy` repository.

The development shallowly embeds, from the TypeScript sources:
  * the cross-chain extension extraction
    (`facilitator/src/extensions/crossChain.ts`, `extractCrossChainInfo`);
  * the `CrossChainRouter` verify/settle routing layer
    (`facilitator/src/schemes/crossChainRouter.ts`);
  * the `BridgeService` liquidity / exchange-rate checks
    (`facilitator/src/services/bridgeService.ts`);
  * the lifecycle hooks registered on the facilitator
    (`facilitator/src/facilitator-implementation.ts`, `onBeforeVerify`,
    `onAfterSettle`);
  * the nonce-conflict-resilient transaction submission loop
    (`RealWallet.pay` in the x402 client).

Stateful delegation is made observable through an explicit event trace:
the embedded functions return their result together with the list of
calls they made into the underlying scheme facilitator / bridge service.
-/

/-! ## A small JS value model

`PaymentPayload.extensions` is an untyped bag in the source
(`extensions?: Record<string, unknown>`), and `extractCrossChainInfo`
inspects it with JavaScript truthiness and `typeof` checks.  We model
just enough of JavaScript values to translate those checks faithfully. -/

inductive JsValue where
  | nullv : JsValue
  | bool (b : Bool) : JsValue
  | num (n : Int) : JsValue
  | str (s : String) : JsValue
  | obj (fields : List (String × JsValue)) : JsValue

/-- JavaScript truthiness (`!v` is `false` exactly on truthy values). -/
def jsTruthy : JsValue → Bool
  | .nullv => false
  | .bool b => b
  | .num n => n != 0
  | .str s => s != ""
  | .obj _ => true

/-- `typeof v === "object"` (true for objects and for `null`). -/
def jsTypeofObject : JsValue → Bool
  | .nullv => true
  | .obj _ => true
  | _ => false

/-- First-match association lookup, JS property access on an object. -/
def lookupField : List (String × JsValue) → String → Option JsValue
  | [], _ => none
  | (k, v) :: t, key => if k == key then some v else lookupField t key

/-- Property access `v[key]`; on non-objects the access yields `undefined`
(the only non-object values reaching accesses in the translated code have
already passed a `typeof`/truthiness guard). -/
def jsGet : JsValue → String → Option JsValue
  | .obj fs, key => lookupField fs key
  | _, _ => none

/-! ## Data model (`@x402/core/types` as used by the facilitator) -/

structure PaymentRequirements where
  scheme : String
  network : String
  asset : String
  amount : String
  payTo : String
  maxTimeoutSeconds : Nat
  extra : Option JsValue

structure PaymentPayload where
  scheme : String
  network : String
  signedPayload : String
  extensions : Option JsValue

structure VerifyResponse where
  isValid : Bool
  payer : Option String
  invalidReason : Option String

structure SettleResponse where
  success : Bool
  transaction : String
  network : String
  payer : Option String
  errorReason : Option String

/-- Cross-chain extension info (`extensions/crossChain.ts`). -/
structure CrossChainInfo where
  destinationNetwork : String
  destinationAsset : String
  destinationPayTo : String

/-! ## Regex checks of `extractCrossChainInfo`

The source validates the extension fields with
`/^eip155:\d+$/` and `/^0x[a-fA-F0-9]{40}$/`. -/

/-- `^eip155:\d+$` : the literal `eip155:` followed by one or more
decimal digits, nothing else. -/
def isEip155Network (s : String) : Bool :=
  let cs := s.toList
  let pre := "eip155:".toList
  pre.isPrefixOf cs && !(cs.drop pre.length).isEmpty
    && (cs.drop pre.length).all Char.isDigit

def isHexDigitJs (c : Char) : Bool :=
  c.isDigit || ('a' ≤ c && c ≤ 'f') || ('A' ≤ c && c ≤ 'F')

/-- `^0x[a-fA-F0-9]{40}$` : `0x` followed by exactly 40 hex digits. -/
def isEvmAddress (s : String) : Bool :=
  let cs := s.toList
  ("0x".toList).isPrefixOf cs && (cs.drop 2).length == 40
    && (cs.drop 2).all isHexDigitJs

/-! ## `extractCrossChainInfo` (`extensions/crossChain.ts`, lines 210-249) -/

/-- The per-entry part of `extractCrossChainInfo`: everything after
`payload.extensions[CROSS_CHAIN]` has been read (the
`!extension || typeof extension !== "object"` guard onward). -/
def extractEntryInfo (ext : JsValue) : Option CrossChainInfo :=
  if !(jsTruthy ext && jsTypeofObject ext) then none
  else
    match jsGet ext "info" with
    | none => none
    | some info =>
      if !(jsTruthy info && jsTypeofObject info) then none
      else
        match jsGet info "destinationNetwork", jsGet info "destinationAsset",
              jsGet info "destinationPayTo" with
        | some (.str n), some (.str a), some (.str p) =>
          if isEip155Network n && isEvmAddress a && isEvmAddress p then
            some ⟨n, a, p⟩
          else none
        | _, _, _ => none

/-- `extractCrossChainInfo(payload)`: returns the destination-chain info
when the `"cross-chain"` extension is present and well formed, `null`
(here `none`) otherwise. -/
def extractCrossChainInfo (payload : PaymentPayload) : Option CrossChainInfo :=
  match payload.extensions with
  | none => none
  | some exts =>
    if !(jsTruthy exts && jsTypeofObject exts) then none
    else
      match jsGet exts "cross-chain" with
      | none => none
      | some ext => extractEntryInfo ext

/-- The `"cross-chain"` entry of a payload's extension bag, when the bag
is an object holding that key. -/
def lookupCrossChainExt (payload : PaymentPayload) : Option JsValue :=
  match payload.extensions with
  | some (.obj fs) => lookupField fs "cross-chain"
  | _ => none

/-! ## Delegation traces

The router and the lifecycle hooks delegate to the underlying scheme
facilitator and to the bridge service.  The embedding records each such
call as an event, so that "the underlying scheme is never invoked" and
"`bridge()` is never invoked" become statements about the trace. -/

inductive Event where
  | schemeVerify (req : PaymentRequirements) : Event
  | schemeSettle (req : PaymentRequirements) : Event
  | liquidityCheck (sourceNetwork destNetwork asset amount : String) : Event
  | rateCheck (sourceNetwork destNetwork sourceAsset destAsset : String) : Event
  | bridgeCall (sourceNetwork sourceTx destNetwork destAsset amount recipient : String) : Event

def isSchemeSettleEvent : Event → Bool
  | .schemeSettle _ => true
  | _ => false

def isSchemeEvent : Event → Bool
  | .schemeVerify _ => true
  | .schemeSettle _ => true
  | _ => false

def isBridgeCallEvent : Event → Bool
  | .bridgeCall _ _ _ _ _ _ => true
  | _ => false

/-- The verify/settle contract of an underlying scheme facilitator
(`SchemeNetworkFacilitator` in `@x402/core/types`); `Except` carries a
thrown error's message. -/
structure SchemeNetworkFacilitator where
  verify : PaymentPayload → PaymentRequirements → Except String VerifyResponse
  settle : PaymentPayload → PaymentRequirements → Except String SettleResponse

/-! ## `BridgeService` (`services/bridgeService.ts`) -/

namespace BridgeService

/-- `checkLiquidity`: the stub always reports liquidity available. -/
def checkLiquidity (_sourceChain _destChain _asset _amount : String) : Bool :=
  true

/-- `asset.toLowerCase()`, modelled at the character-list level. -/
def lowercase (s : String) : List Char :=
  s.toList.map Char.toLower

/-- `isSameAsset`: case-insensitive string comparison of the two asset
identifiers. -/
def isSameAsset (asset1 asset2 : String) : Bool :=
  lowercase asset1 == lowercase asset2

/-- `getExchangeRate`: `1.0` for the same asset, otherwise the oracle
placeholder (also `1.0` in the source). -/
def getExchangeRate (_sourceChain _destChain : String)
    (sourceAsset destAsset : String) : ℚ :=
  if isSameAsset sourceAsset destAsset then 1 else 1

end BridgeService

/-! ## `CrossChainRouter` (`schemes/crossChainRouter.ts`)

The router holds a map `scheme name → facilitator` (modelled as
`String → Option SchemeNetworkFacilitator`) and an `isEnabled` flag. -/

/-- The source requirements the router hands to the delegated scheme:
the original requirements with `payTo` replaced (the record literal
built at each delegation site of `crossChainRouter.ts`). -/
def buildSourceRequirements (req : PaymentRequirements) (payToAddress : String) :
    PaymentRequirements :=
  { scheme := req.scheme
    network := req.network
    asset := req.asset
    amount := req.amount
    payTo := payToAddress
    maxTimeoutSeconds := req.maxTimeoutSeconds
    extra := req.extra }

/-- `const bridgeLockAddress = requirements.payTo;` — with bridging
enabled the router settles to the facilitator's bridge lock address,
which the requirements carry as `payTo` on cross-chain routes. -/
def bridgeLockAddress (req : PaymentRequirements) : String :=
  req.payTo

/-- `CrossChainRouter.verify`. -/
def crossChainRouterVerify (facs : String → Option SchemeNetworkFacilitator)
    (payload : PaymentPayload) (req : PaymentRequirements) :
    VerifyResponse × List Event :=
  match extractCrossChainInfo payload with
  | none =>
    (⟨false, none, some "missing_cross_chain_extension"⟩, [])
  | some _ =>
    match facs req.scheme with
    | none =>
      (⟨false, none, some ("cross_chain_not_supported_for_scheme: " ++ req.scheme
          ++ ". No facilitator registered for this scheme.")⟩, [])
    | some schemeFacilitator =>
      let sourceRequirements := buildSourceRequirements req req.payTo
      match schemeFacilitator.verify payload sourceRequirements with
      | .ok r => (r, [.schemeVerify sourceRequirements])
      | .error e =>
        (⟨false, none, some ("source_chain_verification_failed: " ++ e)⟩,
         [.schemeVerify sourceRequirements])

/-- `CrossChainRouter.settle`: re-verifies, then delegates settlement on
the source chain; the `Except` result propagates a settlement throw. -/
def crossChainRouterSettle (facs : String → Option SchemeNetworkFacilitator)
    (isEnabled : Bool) (payload : PaymentPayload) (req : PaymentRequirements) :
    Except String SettleResponse × List Event :=
  let v := crossChainRouterVerify facs payload req
  if v.1.isValid = false then
    (.ok ⟨false, "", req.network, v.1.payer, v.1.invalidReason⟩, v.2)
  else
    match extractCrossChainInfo payload with
    | none =>
      (.ok ⟨false, "", req.network, v.1.payer, some "missing_cross_chain_extension"⟩, v.2)
    | some _ =>
      if isEnabled = false then
        -- bridging disabled: settle directly to the merchant on the source chain
        let sourceRequirements := buildSourceRequirements req req.payTo
        match facs req.scheme with
        | none =>
          (.ok ⟨false, "", req.network, v.1.payer,
            some ("cross_chain_not_supported_for_scheme: " ++ req.scheme
              ++ ". No facilitator registered for this scheme.")⟩, v.2)
        | some schemeFacilitator =>
          match schemeFacilitator.settle payload sourceRequirements with
          | .ok sr => (.ok { sr with network := req.network },
                       v.2 ++ [.schemeSettle sourceRequirements])
          | .error e => (.error e, v.2 ++ [.schemeSettle sourceRequirements])
      else
        -- bridging enabled: settle to the bridge lock address on the source chain
        let sourceRequirements := buildSourceRequirements req (bridgeLockAddress req)
        match facs req.scheme with
        | none =>
          (.ok ⟨false, "", req.network, v.1.payer,
            some ("cross_chain_not_supported_for_scheme: " ++ req.scheme
              ++ ". No facilitator registered for this scheme.")⟩, v.2)
        | some schemeFacilitator =>
          match schemeFacilitator.settle payload sourceRequirements with
          | .ok sr =>
            if sr.success = false then
              (.ok sr, v.2 ++ [.schemeSettle sourceRequirements])
            else
              (.ok { sr with network := req.network },
               v.2 ++ [.schemeSettle sourceRequirements])
          | .error e => (.error e, v.2 ++ [.schemeSettle sourceRequirements])

/-! ## Lifecycle hooks (`facilitator-implementation.ts`) -/

/-- The `onBeforeVerify` hook body (lines 156-208): for a cross-chain
payload with bridging enabled it gates on bridge liquidity and, for
differing assets, on the exchange rate.  Returning `some reason` is the
hook's `{abort: true, reason}`.  The liquidity and rate functions are
the `BridgeService` methods, taken as parameters since `BridgeService`
is constructed with a deployment-specific provider. -/
def onBeforeVerifyHook (crossChainEnabled : Bool)
    (checkLiquidity : String → String → String → String → Bool)
    (getExchangeRate : String → String → String → String → ℚ)
    (payload : PaymentPayload) (req : PaymentRequirements) :
    Option String × List Event :=
  match extractCrossChainInfo payload with
  | none => (none, [])
  | some info =>
    if crossChainEnabled then
      let hasLiquidity :=
        checkLiquidity req.network info.destinationNetwork req.asset req.amount
      let liqEvent : Event :=
        .liquidityCheck req.network info.destinationNetwork req.asset req.amount
      if hasLiquidity = false then
        (some "insufficient_bridge_liquidity", [liqEvent])
      else if req.asset == info.destinationAsset then
        (none, [liqEvent])
      else
        let rate :=
          getExchangeRate req.network info.destinationNetwork req.asset
            info.destinationAsset
        let rateEvent : Event :=
          .rateCheck req.network info.destinationNetwork req.asset
            info.destinationAsset
        if rate ≤ 0 then
          (some "invalid_exchange_rate", [liqEvent, rateEvent])
        else
          (none, [liqEvent, rateEvent])
    else (none, [])

/-- The `onAfterSettle` hook body (lines 242-317): after a successful
settlement on a network differing from the extension's destination, and
only with bridging enabled, it invokes `bridgeService.bridge(...)`
(recorded as a `bridgeCall` event; the bridge outcome is caught and
logged, so it does not alter the settlement result). -/
def onAfterSettleHook (crossChainEnabled : Bool) (payload : PaymentPayload)
    (req : PaymentRequirements) (result : SettleResponse) : List Event :=
  match extractCrossChainInfo payload with
  | none => []
  | some info =>
    if result.success && result.network != info.destinationNetwork
        && crossChainEnabled then
      [.bridgeCall result.network result.transaction info.destinationNetwork
        info.destinationAsset req.amount info.destinationPayTo]
    else []

/-- Modelled from the spec: the `x402Facilitator` verify pipeline of
`@x402/core/facilitator` is not part of this repository's sources; per
the spec a `beforeVerify` hook may return `{abort: true, reason}`, which
short-circuits before the scheme call runs and yields
`{isValid: false, invalidReason: reason}`. -/
def facilitatorVerify
    (hook : PaymentPayload → PaymentRequirements → Option String × List Event)
    (schemeVerify : PaymentPayload → PaymentRequirements → VerifyResponse)
    (payload : PaymentPayload) (req : PaymentRequirements) :
    VerifyResponse × List Event :=
  match hook payload req with
  | (some reason, ev) => (⟨false, none, some reason⟩, ev)
  | (none, ev) =>
    (schemeVerify payload req, ev ++ [.schemeVerify req])

/-- Modelled from the spec: the `x402Facilitator` settle pipeline of
`@x402/core/facilitator` is not part of this repository's sources; per
the spec it runs the scheme settlement (here the cross-chain router)
and then the `onAfterSettle` hook on the settlement result (the
`beforeSettle` hook of the source only logs). -/
def facilitatorSettle (crossChainEnabled : Bool)
    (facs : String → Option SchemeNetworkFacilitator)
    (payload : PaymentPayload) (req : PaymentRequirements) :
    Except String SettleResponse × List Event :=
  let s := crossChainRouterSettle facs crossChainEnabled payload req
  match s.1 with
  | .ok r => (.ok r, s.2 ++ onAfterSettleHook crossChainEnabled payload req r)
  | .error e => (.error e, s.2)

/-! ## `RealWallet.pay` — the transaction submission loop

The loop (x402 client) submits a value transfer with nonce-conflict
recovery: at most `maxAttempts = 5` attempts, classifying each failure
by its error message, recovering a chain-reported nonce from a
`state: N` / `want N` fragment when present, and otherwise blindly
incrementing. -/

/-- The fields `RealWallet.pay` passes to `sendTransaction`:
`{ to: recipient, value, nonce: count }` — nothing else. -/
structure BuiltTx where
  toAddress : String
  value : Nat
  nonce : Nat
deriving DecidableEq

/-- Outcome of one attempt (broadcast plus receipt wait): a confirmed
transaction hash, or a thrown error's message (broadcast rejection or
the `Transaction failed with status:` receipt error). -/
inductive PayOutcome where
  | confirmed (hash : String) : PayOutcome
  | raised (msg : String) : PayOutcome
deriving DecidableEq

/-- One loop iteration as recorded in the trace. -/
structure Submission where
  tx : BuiltTx
  res : PayOutcome
deriving DecidableEq

/-- The chain as the loop observes it: the recipient and value of the
transfer, the RPC pending-nonce query, and the outcome of submitting a
transaction on a given attempt. -/
structure PayEnv where
  recipient : String
  value : Nat
  rpc : Nat → Nat
  send : Nat → BuiltTx → PayOutcome

/-- Contiguous-sublist containment on character lists. -/
def containsSub : List Char → List Char → Bool
  | [], pat => pat.isEmpty
  | c :: t, pat => pat.isPrefixOf (c :: t) || containsSub t pat

/-- `error.message.includes(...)` — substring containment. -/
def containsStr (msg pat : String) : Bool :=
  containsSub msg.toList pat.toList

/-- The nonce-conflict error family:
`"nonce too low" / "nonce usage" / "replacement transaction underpriced"
/ "already known"`. -/
def isNonceError (msg : String) : Bool :=
  containsStr msg "nonce too low" || containsStr msg "nonce usage"
    || containsStr msg "replacement transaction underpriced"
    || containsStr msg "already known"

/-- JavaScript `\s` on the characters occurring in chain error text. -/
def jsSpace (c : Char) : Bool :=
  c == ' ' || c == '\t' || c == '\n' || c == '\r' || c == '\x0b' || c == '\x0c'

def digitsToNat (ds : List Char) : Nat :=
  ds.foldl (fun acc c => acc * 10 + (c.toNat - '0'.toNat)) 0

/-- Try `pat` + `\s*` + `(\d+)` at the head of `l`; returns the parsed
capture on success. -/
def tryMatchAt (pat : List Char) (l : List Char) : Option Nat :=
  if pat.isPrefixOf l then
    let ds := ((l.drop pat.length).dropWhile jsSpace).takeWhile Char.isDigit
    if ds.isEmpty then none else some (digitsToNat ds)
  else none

/-- Unanchored regex search for `pat` + `\s*` + `(\d+)`: first position
at which the pattern matches wins, as in `String.prototype.match`. -/
def searchPattern (pat : List Char) : List Char → Option Nat
  | [] => none
  | c :: t =>
    match tryMatchAt pat (c :: t) with
    | some n => some n
    | none => searchPattern pat t

/-- `error.message.match(/state:\s*(\d+)/) || error.message.match(/want\s*(\d+)/)`
with `parseInt` on the capture. -/
def parseChainNonce (msg : String) : Option Nat :=
  match searchPattern "state:".toList msg.toList with
  | some n => some n
  | none => searchPattern "want".toList msg.toList

/-- The next candidate nonce after a nonce-conflict failure at nonce
`count`: the chain-reported nonce when one parses, else `count + 1`. -/
def nextNonceAfter (count : Nat) (msg : String) : Nat :=
  match parseChainNonce msg with
  | some n => n
  | none => count + 1

/-- The message of the terminal error thrown when the attempt bound is
exceeded. -/
def maxRetryMsg : String := "Max retry attempts reached for transaction."

/-- The candidate nonce of an attempt: the corrected nonce from the
previous error when there is one, else the RPC pending-nonce query. -/
def candidateNonce (env : PayEnv) (i : Nat) : Option Nat → Nat
  | some n => n
  | none => env.rpc i

/-- The `while (attempt < maxAttempts)` loop of `RealWallet.pay`,
by fuel = remaining attempts; `i` is the 1-based attempt counter and
`nn` the corrected nonce carried from a previous conflict (`null` on the
first attempt).  Returns the outcome and the trace of submissions. -/
def payAux (env : PayEnv) : Nat → Nat → Option Nat → PayOutcome × List Submission
  | 0, _, _ => (.raised maxRetryMsg, [])
  | fuel + 1, i, nn =>
    let count := candidateNonce env i nn
    let tx : BuiltTx := ⟨env.recipient, env.value, count⟩
    match env.send i tx with
    | .confirmed hash => (.confirmed hash, [⟨tx, .confirmed hash⟩])
    | .raised msg =>
      if isNonceError msg then
        let rest := payAux env fuel (i + 1) (some (nextNonceAfter count msg))
        (rest.1, ⟨tx, .raised msg⟩ :: rest.2)
      else
        (.raised msg, [⟨tx, .raised msg⟩])

/-- `RealWallet.pay`: `maxAttempts = 5`, first attempt queries the RPC
pending nonce. -/
def pay (env : PayEnv) : PayOutcome × List Submission :=
  payAux env 5 1 none

/-! ## Predicates used by the statements -/

/-- The relation between consecutive submissions of the loop: the
earlier attempt failed with a nonce-family error and the later attempt's
nonce is the corrected candidate computed from that error. -/
def retryStep (s t : Submission) : Prop :=
  ∃ msg, s.res = .raised msg ∧ isNonceError msg = true
    ∧ t.tx.nonce = nextNonceAfter s.tx.nonce msg

/-- The frame condition on a source requirements record `r` built from
`req`: every field of the original is preserved except `payTo`, which is
the bridge lock address when bridging is enabled and the original
merchant `payTo` when it is disabled. -/
def sourceReqOk (enabled : Bool) (req r : PaymentRequirements) : Prop :=
  r.scheme = req.scheme ∧ r.network = req.network ∧ r.asset = req.asset
    ∧ r.amount = req.amount ∧ r.maxTimeoutSeconds = req.maxTimeoutSeconds
    ∧ r.extra = req.extra
    ∧ r.payTo = (if enabled then bridgeLockAddress req else req.payTo)

/-- `sourceReqOk` on the requirements carried by scheme-delegation
events; trivially true on the other events. -/
def eventReqOk (enabled : Bool) (req : PaymentRequirements) : Event → Prop
  | .schemeVerify r => sourceReqOk enabled req r
  | .schemeSettle r => sourceReqOk enabled req r
  | _ => True

/-! ## Concrete inputs used by the witnesses -/

/-- A scheme registry with no facilitator registered. -/
def noFacs : String → Option SchemeNetworkFacilitator := fun _ => none

/-- A payload carrying no extensions at all. -/
def payloadNoExt : PaymentPayload :=
  ⟨"exact", "eip155:84532", "0xsig", none⟩

/-- Sample requirements: pay 10000 units of an ERC-20 on Base Sepolia. -/
def reqSample : PaymentRequirements :=
  ⟨"exact", "eip155:84532", "0xA0b86991c6218b36c1d19D4a2e9Eb0cE3606eB48",
   "10000", "0xFacilitatorLock", 60, none⟩

/-- A well-formed cross-chain extension entry (destination Polygon). -/
def goodCrossChainEntry : JsValue :=
  .obj [("info", .obj
    [("destinationNetwork", .str "eip155:137"),
     ("destinationAsset", .str "0x3c499c542cEF5E3811e1192ce70d8cC03d5c3359"),
     ("destinationPayTo", .str "0xA0b86991c6218b36c1d19D4a2e9Eb0cE3606eB48")])]

/-- A payload carrying the well-formed cross-chain extension. -/
def payloadCrossChain : PaymentPayload :=
  ⟨"exact", "eip155:84532", "0xsig", some (.obj [("cross-chain", goodCrossChainEntry)])⟩

/-- A malformed cross-chain extension entry: `destinationNetwork` is not
in `eip155:<digits>` form. -/
def badCrossChainEntry : JsValue :=
  .obj [("info", .obj
    [("destinationNetwork", .str "polygon"),
     ("destinationAsset", .str "0x3c499c542cEF5E3811e1192ce70d8cC03d5c3359"),
     ("destinationPayTo", .str "0xA0b86991c6218b36c1d19D4a2e9Eb0cE3606eB48")])]

/-- A payload whose `"cross-chain"` extension entry is present but
malformed. -/
def payloadBadExt : PaymentPayload :=
  ⟨"exact", "eip155:84532", "0xsig", some (.obj [("cross-chain", badCrossChainEntry)])⟩

/-- A chain on which every submission fails with a bare nonce-conflict
error (no parsable corrected nonce). -/
def envAllNonce : PayEnv :=
  ⟨"0xMerchant", 5, fun _ => 0, fun _ _ => .raised "nonce too low"⟩

/-- The nonce-race error text of the spec's scenario: the chain reports
its expected nonce as `state: 7`. -/
def msgState7 : String := "nonce too low: address 0xSender, tx: 3, state: 7"

/-- A chain whose first broadcast loses a nonce race (reporting
`state: 7`) and which confirms the second broadcast. -/
def env7 : PayEnv :=
  ⟨"0xMerchant", 5, fun _ => 3,
   fun i _ => if i == 1 then .raised msgState7 else .confirmed "0xabc"⟩

/-- A chain on which every submission fails with a non-nonce error. -/
def envFatal : PayEnv :=
  ⟨"0xMerchant", 5, fun _ => 0, fun _ _ => .raised "insufficient funds for gas"⟩

/-- The nonce-race error of a chain whose reported `state:` nonce equals
the nonce just attempted (a stale `already known` style race). -/
def msgState7Same : String := "nonce too low: address 0xSender, tx: 7, state: 7"

/-- A chain where the RPC pending nonce is 7, the first broadcast fails
reporting `state: 7`, and the retry is confirmed: both attempts build
the very same transaction. -/
def env67 : PayEnv :=
  ⟨"0xMerchant", 5, fun _ => 7,
   fun i _ => if i == 1 then .raised msgState7Same else .confirmed "0xdef"⟩

/-! ## Helper lemmas -/

/-- A payload whose extension bag has no `"cross-chain"` entry extracts
no cross-chain info. -/
theorem extract_none_of_lookup_none (payload : PaymentPayload)
    (h : lookupCrossChainExt payload = none) :
    extractCrossChainInfo payload = none := by
  unfold lookupCrossChainExt at h
  unfold extractCrossChainInfo
  cases hp : payload.extensions with
  | none => rfl
  | some v =>
    rw [hp] at h
    cases v <;> simp_all [jsTruthy, jsTypeofObject, jsGet]

/-- The verify trace of the router holds no settle delegation. -/
theorem verify_trace_no_settle (facs : String → Option SchemeNetworkFacilitator)
    (payload : PaymentPayload) (req : PaymentRequirements) :
    ((crossChainRouterVerify facs payload req).2.filter isSchemeSettleEvent) = [] := by
  unfold crossChainRouterVerify
  cases extractCrossChainInfo payload with
  | none => rfl
  | some info =>
    cases facs req.scheme with
    | none => rfl
    | some fac =>
      cases hv : fac.verify payload (buildSourceRequirements req req.payTo) <;>
        simp [hv, isSchemeSettleEvent]

/-! ## C3 — missing-extension gate -/

/-- C3: for every `PaymentPayload` whose extensions do not contain a
cross-chain extension entry, `CrossChainRouter.verify` returns exactly
`{isValid: false, invalidReason: "missing_cross_chain_extension"}`, for
any `PaymentRequirements` and scheme registry. -/
theorem missing_extension_gate (payload : PaymentPayload)
    (h : lookupCrossChainExt payload = none)
    (facs : String → Option SchemeNetworkFacilitator) (req : PaymentRequirements) :
    crossChainRouterVerify facs payload req
      = (⟨false, none, some "missing_cross_chain_extension"⟩, []) := by
  have hx := extract_none_of_lookup_none payload h
  simp [crossChainRouterVerify, hx]

/-- Witness for C3 at a concrete extensionless payload. -/
theorem missing_extension_gate_witness :
    lookupCrossChainExt payloadNoExt = none
    ∧ crossChainRouterVerify noFacs payloadNoExt reqSample
        = (⟨false, none, some "missing_cross_chain_extension"⟩, []) :=
  ⟨rfl, missing_extension_gate payloadNoExt rfl noFacs reqSample⟩

/-! ## C10 — malformed extension entries behave like missing ones -/

/-- C10: a payload whose `"cross-chain"` extension entry is present but
malformed — `info` missing, `destinationNetwork` not matching
`^eip155:\d+$`, or `destinationAsset`/`destinationPayTo` not matching
`^0x[a-fA-F0-9]{40}$` — is treated exactly like a payload with no
extension: `extractCrossChainInfo` returns `none`,
`CrossChainRouter.verify` reports `missing_cross_chain_extension`
(not a distinct malformed-extension reason), and the `beforeVerify`
liquidity/bridging hook skips it without any check or abort. -/
theorem malformed_extension_treated_as_missing (payload : PaymentPayload)
    (fs : List (String × JsValue)) (v : JsValue)
    (hext : payload.extensions = some (.obj fs))
    (hlook : lookupField fs "cross-chain" = some v)
    (hbad : jsGet v "info" = none
      ∨ ∃ info n a p, jsGet v "info" = some info
          ∧ jsGet info "destinationNetwork" = some (.str n)
          ∧ jsGet info "destinationAsset" = some (.str a)
          ∧ jsGet info "destinationPayTo" = some (.str p)
          ∧ (isEip155Network n = false ∨ isEvmAddress a = false
              ∨ isEvmAddress p = false)) :
    extractCrossChainInfo payload = none
    ∧ (∀ facs req, crossChainRouterVerify facs payload req
        = (⟨false, none, some "missing_cross_chain_extension"⟩, []))
    ∧ (∀ enabled checkLiq getRate req,
        onBeforeVerifyHook enabled checkLiq getRate payload req = (none, [])) := by
  have hentry : extractEntryInfo v = none := by
    unfold extractEntryInfo
    rcases hbad with hinfo | ⟨info, n, a, p, hinfo, hn, ha, hp, hfail⟩
    · cases htv : jsTruthy v && jsTypeofObject v <;> simp [hinfo]
    · cases htv : jsTruthy v && jsTypeofObject v
      · simp
      · simp only [htv, Bool.not_true, Bool.false_eq_true, if_false, hinfo]
        cases hti : jsTruthy info && jsTypeofObject info
        · simp
        · simp only [hti, Bool.not_true, Bool.false_eq_true, if_false, hn, ha, hp]
          rcases hfail with hf | hf | hf <;> simp [hf]
  have hx : extractCrossChainInfo payload = none := by
    unfold extractCrossChainInfo
    rw [hext]
    simp [jsTruthy, jsTypeofObject, jsGet, hlook, hentry]
  refine ⟨hx, fun facs req => by simp [crossChainRouterVerify, hx],
    fun enabled checkLiq getRate req => by simp [onBeforeVerifyHook, hx]⟩

/-- Witness for C10: a concrete entry whose `destinationNetwork` is
`"polygon"` (not CAIP-2) is routed to the missing-extension failure. -/
theorem malformed_extension_witness :
    payloadBadExt.extensions = some (.obj [("cross-chain", badCrossChainEntry)])
    ∧ isEip155Network "polygon" = false
    ∧ extractCrossChainInfo payloadBadExt = none
    ∧ crossChainRouterVerify noFacs payloadBadExt reqSample
        = (⟨false, none, some "missing_cross_chain_extension"⟩, []) := by
  have h := malformed_extension_treated_as_missing payloadBadExt
    [("cross-chain", badCrossChainEntry)] badCrossChainEntry rfl rfl
    (Or.inr ⟨.obj
      [("destinationNetwork", .str "polygon"),
       ("destinationAsset", .str "0x3c499c542cEF5E3811e1192ce70d8cC03d5c3359"),
       ("destinationPayTo", .str "0xA0b86991c6218b36c1d19D4a2e9Eb0cE3606eB48")],
      "polygon", "0x3c499c542cEF5E3811e1192ce70d8cC03d5c3359",
      "0xA0b86991c6218b36c1d19D4a2e9Eb0cE3606eB48",
      rfl, rfl, rfl, rfl, Or.inl (by decide)⟩)
  exact ⟨rfl, by decide, h.1, h.2.1 noFacs reqSample⟩

/-! ## C1 — settle re-verifies and skips the chain write on invalid -/

/-- C1: for every payload/requirements pair on which
`CrossChainRouter.verify` returns an invalid result,
`CrossChainRouter.settle` re-runs `verify` (its trace is exactly the
verify trace), returns `success: false` with `errorReason` equal to that
verify call's `invalidReason`, and never delegates to the underlying
scheme's settle: no chain-write path is reached. -/
theorem settle_reverifies_before_chain_write
    (facs : String → Option SchemeNetworkFacilitator) (isEnabled : Bool)
    (payload : PaymentPayload) (req : PaymentRequirements)
    (h : (crossChainRouterVerify facs payload req).1.isValid = false) :
    crossChainRouterSettle facs isEnabled payload req
      = (.ok ⟨false, "", req.network,
             (crossChainRouterVerify facs payload req).1.payer,
             (crossChainRouterVerify facs payload req).1.invalidReason⟩,
         (crossChainRouterVerify facs payload req).2)
    ∧ ((crossChainRouterSettle facs isEnabled payload req).2.filter
        isSchemeSettleEvent) = [] := by
  have hset : crossChainRouterSettle facs isEnabled payload req
      = (.ok ⟨false, "", req.network,
             (crossChainRouterVerify facs payload req).1.payer,
             (crossChainRouterVerify facs payload req).1.invalidReason⟩,
         (crossChainRouterVerify facs payload req).2) := by
    unfold crossChainRouterSettle
    simp [h]
  exact ⟨hset, by rw [hset]; exact verify_trace_no_settle facs payload req⟩

/-- Witness for C1: with no registered facilitator and no extension,
verify is invalid and settle returns the same reason with an empty
delegation trace. -/
theorem settle_reverifies_witness :
    (crossChainRouterVerify noFacs payloadNoExt reqSample).1.isValid = false
    ∧ crossChainRouterSettle noFacs true payloadNoExt reqSample
        = (.ok ⟨false, "", "eip155:84532", none,
               some "missing_cross_chain_extension"⟩, []) :=
  ⟨rfl, (settle_reverifies_before_chain_write noFacs true payloadNoExt reqSample rfl).1⟩

/-! ## C7 — same-asset exchange rate -/

/-- C7: for every source chain, destination chain, and pair of asset
identifiers equal under case-insensitive comparison,
`BridgeService.getExchangeRate` returns exactly `1.0`. -/
theorem same_asset_rate_is_one (sourceChain destChain assetA assetB : String)
    (h : BridgeService.lowercase assetA = BridgeService.lowercase assetB) :
    BridgeService.getExchangeRate sourceChain destChain assetA assetB = 1 := by
  simp [BridgeService.getExchangeRate, BridgeService.isSameAsset, h]

/-- Witness for C7 at a mixed-case pair of identical addresses. -/
theorem same_asset_rate_witness :
    BridgeService.lowercase "0xAbCd" = BridgeService.lowercase "0xaBcD"
    ∧ BridgeService.getExchangeRate "eip155:8453" "eip155:137" "0xAbCd" "0xaBcD" = 1 :=
  ⟨by decide, same_asset_rate_is_one "eip155:8453" "eip155:137" "0xAbCd" "0xaBcD" (by decide)⟩

/-! ## C2 — liquidity gate aborts before any scheme call -/

/-- C2: whenever the bridge service's liquidity check returns `false`
for a cross-chain payment with bridging enabled, the `beforeVerify` hook
aborts the verify call with reason `insufficient_bridge_liquidity`
before the underlying scheme's verify or settle is ever called: the
pipeline's result is the abort and its trace holds the liquidity check
only, no scheme delegation at all. -/
theorem liquidity_gate_aborts_verify
    (checkLiq : String → String → String → String → Bool)
    (getRate : String → String → String → String → ℚ)
    (schemeVerify : PaymentPayload → PaymentRequirements → VerifyResponse)
    (payload : PaymentPayload) (req : PaymentRequirements) (info : CrossChainInfo)
    (h1 : extractCrossChainInfo payload = some info)
    (h2 : checkLiq req.network info.destinationNetwork req.asset req.amount = false) :
    facilitatorVerify (onBeforeVerifyHook true checkLiq getRate) schemeVerify payload req
      = (⟨false, none, some "insufficient_bridge_liquidity"⟩,
         [.liquidityCheck req.network info.destinationNetwork req.asset req.amount])
    ∧ ((facilitatorVerify (onBeforeVerifyHook true checkLiq getRate) schemeVerify
          payload req).2.filter isSchemeEvent) = [] := by
  have hhook : onBeforeVerifyHook true checkLiq getRate payload req
      = (some "insufficient_bridge_liquidity",
         [.liquidityCheck req.network info.destinationNetwork req.asset req.amount]) := by
    simp [onBeforeVerifyHook, h1, h2]
  constructor
  · simp [facilitatorVerify, hhook]
  · simp [facilitatorVerify, hhook, isSchemeEvent]

/-- Witness for C2: a concrete liquidity check refusing every request
aborts the verify of a concrete cross-chain payload. -/
theorem liquidity_gate_witness :
    extractCrossChainInfo payloadCrossChain
      = some ⟨"eip155:137", "0x3c499c542cEF5E3811e1192ce70d8cC03d5c3359",
              "0xA0b86991c6218b36c1d19D4a2e9Eb0cE3606eB48"⟩
    ∧ facilitatorVerify
        (onBeforeVerifyHook true (fun _ _ _ _ => false) (fun _ _ _ _ => 1))
        (fun _ _ => ⟨true, some "0xPayer", none⟩) payloadCrossChain reqSample
      = (⟨false, none, some "insufficient_bridge_liquidity"⟩,
         [.liquidityCheck "eip155:84532" "eip155:137"
            "0xA0b86991c6218b36c1d19D4a2e9Eb0cE3606eB48" "10000"]) :=
  ⟨rfl,
   (liquidity_gate_aborts_verify (fun _ _ _ _ => false) (fun _ _ _ _ => 1)
      (fun _ _ => ⟨true, some "0xPayer", none⟩) payloadCrossChain reqSample
      ⟨"eip155:137", "0x3c499c542cEF5E3811e1192ce70d8cC03d5c3359",
       "0xA0b86991c6218b36c1d19D4a2e9Eb0cE3606eB48"⟩ rfl rfl).1⟩

/-! ## C8 — frame condition on the delegated source requirements -/

/-- `Forall` over a trace extended by one event. -/
theorem forall_append_singleton {α : Type} (p : α → Prop) (l : List α) (a : α) :
    (l ++ [a]).Forall p ↔ l.Forall p ∧ p a := by
  simp [List.forall_iff_forall_mem, or_imp, forall_and]

/-- The requirements record the router builds satisfies the frame
condition: all fields preserved, `payTo` replaced by the bridge lock
address (which the source takes from `requirements.payTo`). -/
theorem sourceReqOk_build (enabled : Bool) (req : PaymentRequirements) :
    sourceReqOk enabled req (buildSourceRequirements req req.payTo) := by
  cases enabled <;>
    simp [sourceReqOk, buildSourceRequirements, bridgeLockAddress]

/-- Every event of the router's verify trace satisfies the frame
condition on its requirements. -/
theorem verify_trace_req_ok (facs : String → Option SchemeNetworkFacilitator)
    (enabled : Bool) (payload : PaymentPayload) (req : PaymentRequirements) :
    (crossChainRouterVerify facs payload req).2.Forall (eventReqOk enabled req) := by
  unfold crossChainRouterVerify
  cases extractCrossChainInfo payload with
  | none => simp [List.Forall]
  | some info =>
    cases facs req.scheme with
    | none => simp [List.Forall]
    | some fac =>
      cases hv : fac.verify payload (buildSourceRequirements req req.payTo) <;>
        simp [hv, List.Forall, eventReqOk, sourceReqOk_build]

/-- C8: for every payload/requirements pair, the source-side
requirements that `CrossChainRouter` builds and passes to the delegated
scheme (on both the verify and the settle path) keep `scheme`,
`network`, `asset`, `amount`, `maxTimeoutSeconds` and `extra` equal to
the original requirements' fields, and set `payTo` to the bridge lock
address when bridging is enabled and to the original merchant `payTo`
when bridging is disabled. -/
theorem source_requirements_frame (facs : String → Option SchemeNetworkFacilitator)
    (enabled : Bool) (payload : PaymentPayload) (req : PaymentRequirements) :
    ((crossChainRouterVerify facs payload req).2.Forall (eventReqOk enabled req))
    ∧ ((crossChainRouterSettle facs enabled payload req).2.Forall
        (eventReqOk enabled req)) := by
  refine ⟨verify_trace_req_ok facs enabled payload req, ?_⟩
  have hv := verify_trace_req_ok facs enabled payload req
  unfold crossChainRouterSettle
  by_cases hval : (crossChainRouterVerify facs payload req).1.isValid = false
  · simp [hval, hv]
  · simp only [hval, if_false]
    cases extractCrossChainInfo payload with
    | none => simp [hv]
    | some info =>
      cases enabled with
      | false =>
        simp only [if_true, reduceIte]
        cases facs req.scheme with
        | none => simpa using hv
        | some fac =>
          cases hs : fac.settle payload (buildSourceRequirements req req.payTo) <;>
            simp only [hs] <;>
            exact (forall_append_singleton _ _ _).mpr
              ⟨hv, sourceReqOk_build false req⟩
      | true =>
        simp only [reduceIte]
        cases facs req.scheme with
        | none => simpa using hv
        | some fac =>
          cases hs : fac.settle payload
              (buildSourceRequirements req (bridgeLockAddress req)) with
          | error e =>
            simp only [hs]
            exact (forall_append_singleton _ _ _).mpr
              ⟨hv, sourceReqOk_build true req⟩
          | ok sr =>
            by_cases hsr : sr.success = false <;>
              simp only [hs, hsr, reduceIte] <;>
              exact (forall_append_singleton _ _ _).mpr
                ⟨hv, sourceReqOk_build true req⟩

/-! ## C9 — bridging disabled means `bridge()` is never invoked -/

/-- The router's settle trace never contains a bridge call (the router
delegates bridging entirely to the `onAfterSettle` hook). -/
theorem router_settle_no_bridge (facs : String → Option SchemeNetworkFacilitator)
    (enabled : Bool) (payload : PaymentPayload) (req : PaymentRequirements) :
    ((crossChainRouterSettle facs enabled payload req).2.filter isBridgeCallEvent) = [] := by
  have hverify : ((crossChainRouterVerify facs payload req).2.filter
      isBridgeCallEvent) = [] := by
    unfold crossChainRouterVerify
    cases extractCrossChainInfo payload with
    | none => rfl
    | some info =>
      cases facs req.scheme with
      | none => rfl
      | some fac =>
        cases hv : fac.verify payload (buildSourceRequirements req req.payTo) <;>
          simp [hv, isBridgeCallEvent]
  unfold crossChainRouterSettle
  by_cases hval : (crossChainRouterVerify facs payload req).1.isValid = false
  · simp [hval, hverify]
  · simp only [hval, if_false]
    cases extractCrossChainInfo payload with
    | none => simp [hverify]
    | some info =>
      cases enabled with
      | false =>
        simp only [reduceIte]
        cases facs req.scheme with
        | none => simpa using hverify
        | some fac =>
          cases hs : fac.settle payload (buildSourceRequirements req req.payTo) <;>
            simp [hs, List.filter_append, hverify, isBridgeCallEvent]
      | true =>
        simp only [reduceIte]
        cases facs req.scheme with
        | none => simpa using hverify
        | some fac =>
          cases hs : fac.settle payload
              (buildSourceRequirements req (bridgeLockAddress req)) with
          | error e => simp [hs, List.filter_append, hverify, isBridgeCallEvent]
          | ok sr =>
            by_cases hsr : sr.success = false <;>
              simp [hs, hsr, List.filter_append, hverify, isBridgeCallEvent]

/-- C9: with cross-chain bridging disabled (`CROSS_CHAIN_ENABLED=false`),
`BridgeService.bridge` is never invoked on any path of a settle call on
a cross-chain-extended payload: the whole settle pipeline's trace holds
no bridge call, the `onAfterSettle` hook triggers none for any
settlement result, and neither does `CrossChainRouter.settle` itself. -/
theorem bridging_disabled_no_bridge (facs : String → Option SchemeNetworkFacilitator)
    (payload : PaymentPayload) (req : PaymentRequirements) :
    ((facilitatorSettle false facs payload req).2.filter isBridgeCallEvent) = []
    ∧ (∀ result, onAfterSettleHook false payload req result = [])
    ∧ ((crossChainRouterSettle facs false payload req).2.filter isBridgeCallEvent) = [] := by
  have hhook : ∀ result, onAfterSettleHook false payload req result = [] := by
    intro result
    unfold onAfterSettleHook
    cases extractCrossChainInfo payload with
    | none => rfl
    | some info => simp
  have hrouter := router_settle_no_bridge facs false payload req
  refine ⟨?_, hhook, hrouter⟩
  unfold facilitatorSettle
  cases hs : (crossChainRouterSettle facs false payload req).1 with
  | ok r => simp [hs, List.filter_append, hrouter, hhook]
  | error e => simp [hs, hrouter]

/-! ## Submission-loop lemmas -/

/-- The loop performs at most `fuel` submissions. -/
theorem payAux_length_le (env : PayEnv) :
    ∀ fuel i nn, (payAux env fuel i nn).2.length ≤ fuel := by
  intro fuel
  induction fuel with
  | zero => intro i nn; simp [payAux]
  | succ f ih =>
    intro i nn
    simp only [payAux]
    cases hs : env.send i ⟨env.recipient, env.value, candidateNonce env i nn⟩ with
    | confirmed hash => simp [hs]
    | raised msg =>
      by_cases hn : isNonceError msg = true
      · simp only [hs, hn, reduceIte, List.length_cons]
        exact Nat.succ_le_succ (ih _ _)
      · simp only [Bool.not_eq_true] at hn
        simp [hs, hn]

/-- When every submission fails inside the nonce-conflict family, the
loop burns all its fuel and raises the terminal retry error. -/
theorem payAux_all_nonce_errors (env : PayEnv)
    (H : ∀ i tx, ∃ msg, env.send i tx = .raised msg ∧ isNonceError msg = true) :
    ∀ fuel i nn, (payAux env fuel i nn).1 = .raised maxRetryMsg
      ∧ (payAux env fuel i nn).2.length = fuel := by
  intro fuel
  induction fuel with
  | zero => intro i nn; simp [payAux]
  | succ f ih =>
    intro i nn
    obtain ⟨msg, hs, hn⟩ := H i ⟨env.recipient, env.value, candidateNonce env i nn⟩
    simp only [payAux, hs, hn, reduceIte, List.length_cons]
    exact ⟨(ih _ _).1, by rw [(ih _ _).2]⟩

/-! ## C4 — the retry bound -/

/-- C4: `RealWallet.pay` performs at most 5 submission attempts for any
input, and when all attempts fail with nonce-conflict errors it
terminates after exactly 5 attempts by raising the fatal error
`"Max retry attempts reached for transaction."`. -/
theorem nonce_retry_bound (env : PayEnv) :
    (pay env).2.length ≤ 5
    ∧ ((∀ i tx, ∃ msg, env.send i tx = .raised msg ∧ isNonceError msg = true) →
        (pay env).1 = .raised maxRetryMsg ∧ (pay env).2.length = 5) :=
  ⟨payAux_length_le env 5 1 none,
   fun H => payAux_all_nonce_errors env H 5 1 none⟩

/-- Witness for C4: on a chain rejecting every broadcast with
`"nonce too low"`, the loop stops after exactly 5 attempts with the
terminal retry error. -/
theorem nonce_retry_bound_witness :
    (∀ i tx, ∃ msg, envAllNonce.send i tx = .raised msg ∧ isNonceError msg = true)
    ∧ (pay envAllNonce).1 = .raised maxRetryMsg
    ∧ (pay envAllNonce).2.length = 5 :=
  ⟨fun _ _ => ⟨"nonce too low", rfl, by decide⟩,
   (nonce_retry_bound envAllNonce).2 (fun _ _ => ⟨"nonce too low", rfl, by decide⟩)⟩

/-! ## C5 — nonce-conflict classification and correction -/

/-- The first submission of a loop resumed with a corrected nonce uses
exactly that nonce. -/
theorem payAux_head_nonce (env : PayEnv) :
    ∀ fuel i n y, (payAux env fuel i (some n)).2.head? = some y →
      y.tx.nonce = n := by
  intro fuel i n y h
  cases fuel with
  | zero => simp [payAux] at h
  | succ f =>
    simp only [payAux, candidateNonce] at h
    cases hs : env.send i ⟨env.recipient, env.value, n⟩ with
    | confirmed hash =>
      rw [hs] at h
      simp only [List.head?_cons, Option.some.injEq] at h
      rw [← h]
    | raised msg =>
      rw [hs] at h
      by_cases hn : isNonceError msg = true
      · simp only [hn, reduceIte, List.head?_cons, Option.some.injEq] at h
        rw [← h]
      · simp only [Bool.not_eq_true] at hn
        simp only [hn, Bool.false_eq_true, reduceIte, List.head?_cons,
          Option.some.injEq] at h
        rw [← h]

/-- Consecutive submissions of the loop are related by `retryStep`: the
earlier one failed inside the nonce-conflict family and the later one
uses the corrected candidate nonce. -/
theorem payAux_chain (env : PayEnv) :
    ∀ fuel i nn, List.Chain' retryStep (payAux env fuel i nn).2 := by
  intro fuel
  induction fuel with
  | zero => intro i nn; simp [payAux]
  | succ f ih =>
    intro i nn
    simp only [payAux]
    cases hs : env.send i ⟨env.recipient, env.value, candidateNonce env i nn⟩ with
    | confirmed hash => simp [hs]
    | raised msg =>
      by_cases hn : isNonceError msg = true
      · simp only [hs, hn, reduceIte]
        rw [List.chain'_cons']
        refine ⟨?_, ih _ _⟩
        intro y hy
        exact ⟨msg, rfl, hn, payAux_head_nonce env f (i + 1) _ y hy⟩
      · simp only [Bool.not_eq_true] at hn
        simp [hs, hn]

/-- An error outside the nonce-conflict family is propagated as the
loop's outcome (no retry is attempted on it). -/
theorem payAux_propagates_fatal (env : PayEnv) :
    ∀ fuel i nn s msg, s ∈ (payAux env fuel i nn).2 → s.res = .raised msg →
      isNonceError msg = false → (payAux env fuel i nn).1 = .raised msg := by
  intro fuel
  induction fuel with
  | zero => intro i nn s msg hmem; simp [payAux] at hmem
  | succ f ih =>
    intro i nn s msg hmem hres hfam
    simp only [payAux] at hmem ⊢
    cases hs : env.send i ⟨env.recipient, env.value, candidateNonce env i nn⟩ with
    | confirmed hash =>
      rw [hs] at hmem
      simp only [List.mem_singleton] at hmem
      rw [hmem] at hres
      simp at hres
    | raised msg0 =>
      rw [hs] at hmem
      by_cases hn : isNonceError msg0 = true
      · simp only [hn, reduceIte] at hmem ⊢
        rcases List.mem_cons.mp hmem with hhead | htail
        · rw [hhead] at hres
          simp only [PayOutcome.raised.injEq] at hres
          rw [← hres] at hfam
          rw [hn] at hfam
          cases hfam
        · exact ih _ _ s msg htail hres hfam
      · simp only [Bool.not_eq_true] at hn
        simp only [hn, Bool.false_eq_true, reduceIte] at hmem ⊢
        simp only [List.mem_singleton] at hmem
        rw [hmem] at hres
        simp only [PayOutcome.raised.injEq] at hres
        rw [hres]

/-- C5: in the submission loop, an attempt failing inside the
nonce-conflict family (`nonce too low` / `nonce usage` / `replacement
transaction underpriced` / `already known`) is followed by an attempt
whose nonce is the integer parsed from a `state: N` or `want N`
fragment of the error text when one is present, and the previous
candidate plus one otherwise; an error outside that family is
propagated immediately without retry. -/
theorem nonce_conflict_correction (env : PayEnv) :
    List.Chain' retryStep (pay env).2
    ∧ (∀ s msg, s ∈ (pay env).2 → s.res = .raised msg →
        isNonceError msg = false → (pay env).1 = .raised msg)
    ∧ (∀ count msg n, parseChainNonce msg = some n →
        nextNonceAfter count msg = n)
    ∧ (∀ count msg, parseChainNonce msg = none →
        nextNonceAfter count msg = count + 1) :=
  ⟨payAux_chain env 5 1 none,
   fun s msg hmem hres hfam =>
     payAux_propagates_fatal env 5 1 none s msg hmem hres hfam,
   fun count msg n h => by simp [nextNonceAfter, h],
   fun count msg h => by simp [nextNonceAfter, h]⟩

/-- Witness for C5: the spec's nonce-race scenario — first broadcast
fails with text containing `nonce too low ... state: 7`; the second
attempt uses nonce 7 and succeeds.  Also: a non-nonce error is the
loop's outcome immediately. -/
theorem nonce_conflict_correction_witness :
    ((pay env7).2.map fun s => s.tx.nonce) = [3, 7]
    ∧ List.Chain' retryStep (pay env7).2
    ∧ parseChainNonce msgState7 = some 7
    ∧ nextNonceAfter 3 msgState7 = 7
    ∧ (pay envFatal).1 = .raised "insufficient funds for gas" :=
  ⟨by decide, (nonce_conflict_correction env7).1, by decide,
   (nonce_conflict_correction env7).2.2.1 3 msgState7 7 (by decide),
   (nonce_conflict_correction envFatal).2.1
     ⟨⟨"0xMerchant", 5, 0⟩, .raised "insufficient funds for gas"⟩
     "insufficient funds for gas" (by decide) rfl (by decide)⟩

/-! ## C6 — transaction contents across attempts -/

/-- Every transaction the loop builds carries the environment's
destination and value. -/
theorem payAux_tx_fields (env : PayEnv) :
    ∀ fuel i nn s, s ∈ (payAux env fuel i nn).2 →
      s.tx.toAddress = env.recipient ∧ s.tx.value = env.value := by
  intro fuel
  induction fuel with
  | zero => intro i nn s hmem; simp [payAux] at hmem
  | succ f ih =>
    intro i nn s hmem
    simp only [payAux] at hmem
    cases hs : env.send i ⟨env.recipient, env.value, candidateNonce env i nn⟩ with
    | confirmed hash =>
      rw [hs] at hmem
      simp only [List.mem_singleton] at hmem
      rw [hmem]
      exact ⟨rfl, rfl⟩
    | raised msg =>
      rw [hs] at hmem
      by_cases hn : isNonceError msg = true
      · simp only [hn, reduceIte] at hmem
        rcases List.mem_cons.mp hmem with hhead | htail
        · rw [hhead]; exact ⟨rfl, rfl⟩
        · exact ih _ _ s htail
      · simp only [Bool.not_eq_true] at hn
        simp only [hn, Bool.false_eq_true, reduceIte, List.mem_singleton] at hmem
        rw [hmem]; exact ⟨rfl, rfl⟩

/-- C6 (amended): every transaction built by the submission loop
consists of exactly the destination, the value and the candidate nonce;
no uniqueness marker is added, so two attempts build the identical
transaction exactly when they use the same candidate nonce. -/
theorem tx_built_without_marker (env : PayEnv) :
    (∀ s, s ∈ (pay env).2 →
      s.tx = ⟨env.recipient, env.value, s.tx.nonce⟩)
    ∧ (∀ s t, s ∈ (pay env).2 → t ∈ (pay env).2 →
        (s.tx = t.tx ↔ s.tx.nonce = t.tx.nonce)) := by
  have fields := payAux_tx_fields env 5 1 none
  constructor
  · intro s hs
    obtain ⟨h1, h2⟩ := fields s hs
    cases hstx : s.tx with
    | mk a v n =>
      rw [hstx] at h1 h2
      simp only at h1 h2
      rw [h1, h2]
  · intro s t hs ht
    obtain ⟨hs1, hs2⟩ := fields s hs
    obtain ⟨ht1, ht2⟩ := fields t ht
    constructor
    · intro h; rw [h]
    · intro h
      cases hstx : s.tx with
      | mk sa sv sn =>
        cases httx : t.tx with
        | mk ta tv tn =>
          rw [hstx] at hs1 hs2 h
          rw [httx] at ht1 ht2 h
          simp only at hs1 hs2 ht1 ht2 h
          simp [BuiltTx.mk.injEq, hs1, hs2, ht1, ht2, h]

/-- Counterexample to C6 as stated: on `env67` the chain's reported
`state:` nonce equals the nonce just attempted, so the first and the
second attempt build the very same transaction — the submitted
transactions are not distinct per attempt (no uniqueness marker exists
in the built payload). -/
theorem tx_uniqueness_counterexample :
    ((pay env67).2.map fun s => s.tx)
      = [⟨"0xMerchant", 5, 7⟩, ⟨"0xMerchant", 5, 7⟩]
    ∧ ¬ ((pay env67).2.map fun s => s.tx).Nodup := by
  constructor
  · decide
  · decide

/-- Witness for the amended C6 at the two concrete submissions of
`env67`. -/
theorem tx_built_without_marker_witness :
    ((⟨⟨"0xMerchant", 5, 7⟩, PayOutcome.raised msgState7Same⟩ : Submission)
        ∈ (pay env67).2)
    ∧ (⟨⟨"0xMerchant", 5, 7⟩, PayOutcome.raised msgState7Same⟩ : Submission).tx
        = ⟨env67.recipient, env67.value,
           (⟨⟨"0xMerchant", 5, 7⟩, PayOutcome.raised msgState7Same⟩ : Submission).tx.nonce⟩
    ∧ ((⟨⟨"0xMerchant", 5, 7⟩, PayOutcome.raised msgState7Same⟩ : Submission).tx
          = (⟨⟨"0xMerchant", 5, 7⟩, PayOutcome.confirmed "0xdef"⟩ : Submission).tx
        ↔ (⟨⟨"0xMerchant", 5, 7⟩, PayOutcome.raised msgState7Same⟩ : Submission).tx.nonce
          = (⟨⟨"0xMerchant", 5, 7⟩, PayOutcome.confirmed "0xdef"⟩ : Submission).tx.nonce) :=
  ⟨by decide,
   (tx_built_without_marker env67).1 _ (by decide),
   (tx_built_without_marker env67).2 _ _ (by decide) (by decide)⟩
